import Mathlib

/-!
Verification of the core gesture/snap logic of the styled-bottom-sheet
component (`src/sheet.tsx`), shallowly embedded over the rationals.

The embedded pieces are:
* snap-point normalization (lines 46-58 of `sheet.tsx`),
* the drag handler `handleDrag` (lines 60-68),
* the release handler `handleDragEnd` (lines 70-100), including the
  snap-index recovery via `indexOf`,
* the imperative `snapTo` operation (lines 119-131),
* the open/close snap-callback effect (lines 113-117).

Side effects (calls to `animate`, `onSnap`, `onClose`, setting the
indicator rotation) are modelled as fields of explicit result records.
A content-height measurement that would dereference a `null` panel ref
(and hence throw in JS) is modelled with `Option`: the measurement input
is `Option ℚ` and the handler result is `none` exactly when the code
would throw.
-/

namespace Sheet

/-- Normalization of one raw snap specification (`sheet.tsx` lines 48-51):
fractions in (0,1] scale by the viewport height, negative values offset
from the viewport height, all other values pass through unchanged. -/
def normalizeSnapPoint (windowHeight point : ℚ) : ℚ :=
  if 0 < point ∧ point ≤ 1 then point * windowHeight
  else if point < 0 then windowHeight + point
  else point

/-- Normalization of the whole configured sequence (`snapPoints.map`). -/
def normalizeSnapPoints (windowHeight : ℚ) (snapPoints : List ℚ) : List ℚ :=
  snapPoints.map (normalizeSnapPoint windowHeight)

/-- One comparison step of the nearest-candidate reduction: keep the
current best unless the new candidate is strictly closer to the goal. -/
def closestStep (goal best cur : ℚ) : ℚ :=
  if |cur - goal| < |best - goal| then cur else best

/-- Modelled from the spec: `getClosest` is imported from `src/utils`,
which is not present under `src/`.  Per the spec (§4.3 step 3) it picks
the candidate numerically closest to the goal, deterministically taking
the first minimal candidate in sequence order on ties.  The JS reduce
has no seed, so the empty list (which would throw) is given the junk
value 0 here; all theorems about it assume a nonempty list. -/
def getClosest (nums : List ℚ) (goal : ℚ) : ℚ :=
  match nums with
  | [] => 0
  | n :: rest => rest.foldl (closestStep goal) n

/-- JavaScript `Array.prototype.indexOf`: index of the first exact match,
or -1 when no element matches. -/
def jsIndexOf (l : List ℚ) (v : ℚ) : ℤ :=
  match l with
  | [] => -1
  | x :: xs =>
    if x = v then 0
    else
      let r := jsIndexOf xs v
      if r = -1 then -1 else r + 1

/-- Snap-index recovery (`sheet.tsx` lines 88-89):
`snapValue = Math.abs(Math.round(snapPoints[0] - snapTo))` followed by
`snapPoints.indexOf(snapValue)`.  JS `Math.round` is `⌊x + 1/2⌋`, which
is Mathlib `round`. -/
def recoverIndex (pts : List ℚ) (snapTo : ℚ) : ℤ :=
  jsIndexOf pts ((|round (pts.headD 0 - snapTo)| : ℤ) : ℚ)

/-- Observable outcome of one `handleDragEnd` invocation. -/
structure DragEndResult where
  closeRequested : Bool
  animateTarget : Option ℚ
  snapCallback : Option ℤ
  indicatorRotation : ℚ
  deriving DecidableEq, Repr

/-- The release handler `handleDragEnd` (`sheet.tsx` lines 70-100) with
the content height already measured.  `snapPoints?` is `none` when no
snap points are configured; `hasOnSnap` states whether an `onSnap`
callback is configured. -/
def handleDragEnd (snapPoints? : Option (List ℚ)) (hasOnSnap : Bool)
    (contentHeight yPos velocityY : ℚ) : DragEndResult :=
  if velocityY > 500 then
    { closeRequested := true
      animateTarget := none
      snapCallback := none
      indicatorRotation := 0 }
  else
    let snapTo :=
      match snapPoints? with
      | some pts => getClosest (pts.map (fun p => contentHeight - p)) yPos
      | none => if yPos / contentHeight > 3/5 then contentHeight else 0
    { closeRequested := decide (contentHeight ≤ snapTo)
      animateTarget := some snapTo
      snapCallback :=
        match snapPoints? with
        | some pts => if hasOnSnap then some (recoverIndex pts snapTo) else none
        | none => none
      indicatorRotation := 0 }

/-- `handleDragEnd` with a possibly failing content-height measurement:
in the slow path the code dereferences `sheetRef.current`, which throws
when the panel element is absent (`contentHeight? = none`). -/
def handleDragEndM (snapPoints? : Option (List ℚ)) (hasOnSnap : Bool)
    (contentHeight? : Option ℚ) (yPos velocityY : ℚ) : Option DragEndResult :=
  if velocityY > 500 then
    some { closeRequested := true
           animateTarget := none
           snapCallback := none
           indicatorRotation := 0 }
  else
    match contentHeight? with
    | none => none
    | some ch => some (handleDragEnd snapPoints? hasOnSnap ch yPos velocityY)

/-- Observable outcome of one imperative `snapTo` invocation. -/
structure SnapToResult where
  animateTarget : Option ℚ
  snapCallback : Option ℤ
  closeRequested : Bool
  deriving DecidableEq, Repr

/-- The result of a `snapTo` call that takes no action at all. -/
def SnapToResult.noop : SnapToResult :=
  { animateTarget := none, snapCallback := none, closeRequested := false }

/-- The imperative `snapTo` operation (`sheet.tsx` lines 119-131).
The guard `snapPoints && snapPoints[snapIndex] !== undefined` runs before
the content height is measured, so out-of-range indices are no-ops even
when the measurement would fail; an in-range index with a missing panel
element throws (`none`). -/
def snapTo (snapPoints? : Option (List ℚ)) (hasOnSnap : Bool)
    (contentHeight? : Option ℚ) (snapIndex : ℤ) : Option SnapToResult :=
  match snapPoints? with
  | none => some SnapToResult.noop
  | some pts =>
    if snapIndex < 0 then some SnapToResult.noop
    else
      match pts.get? snapIndex.toNat with
      | none => some SnapToResult.noop
      | some p =>
        match contentHeight? with
        | none => none
        | some contentHeight =>
          let target := contentHeight - p
          some { animateTarget := some target
                 snapCallback := if hasOnSnap then some snapIndex else none
                 closeRequested := decide (contentHeight ≤ target) }

/-- The drag handler `handleDrag` (`sheet.tsx` lines 60-68): state is
(live offset, indicator rotation); inputs are the current velocity of
the live offset and the per-tick `delta.y`. -/
def handleDrag (state : ℚ × ℚ) (velocity deltaY : ℚ) : ℚ × ℚ :=
  let rot := if velocity > 0 then 10 else if velocity < 0 then -10 else state.2
  (max (state.1 + deltaY) 0, rot)

/-- Folding `handleDrag` over a whole gesture: each event carries the
(velocity, delta.y) pair of that tick. -/
def applyDrags (state : ℚ × ℚ) (events : List (ℚ × ℚ)) : ℚ × ℚ :=
  events.foldl (fun st e => handleDrag st e.1 e.2) state

/-- The open/close snap-callback effect (`sheet.tsx` lines 113-117):
returns the index passed to `onSnap`, or `none` when the guard
`!snapPoints || !onSnap || !mounted` bails out. -/
def openCloseSnapEffect (snapPoints? : Option (List ℚ))
    (hasOnSnap mounted isOpen : Bool) (initialSnap : ℤ) : Option ℤ :=
  match snapPoints? with
  | none => none
  | some pts =>
    if !hasOnSnap || !mounted then none
    else some (if isOpen then initialSnap else (pts.length : ℤ) - 1)

/-- One comparison step never moves farther from the goal than the
current best. -/
lemma closestStep_le_left (goal best cur : ℚ) :
    |closestStep goal best cur - goal| ≤ |best - goal| := by
  unfold closestStep
  split
  · exact le_of_lt (by assumption)
  · exact le_rfl

/-- One comparison step never moves farther from the goal than the new
candidate. -/
lemma closestStep_le_right (goal best cur : ℚ) :
    |closestStep goal best cur - goal| ≤ |cur - goal| := by
  unfold closestStep
  split
  · exact le_rfl
  · exact not_lt.mp (by assumption)

lemma closestStep_eq_or (goal best cur : ℚ) :
    closestStep goal best cur = best ∨ closestStep goal best cur = cur := by
  unfold closestStep
  split
  · exact Or.inr rfl
  · exact Or.inl rfl

lemma foldl_closestStep_mem (goal : ℚ) (l : List ℚ) (acc : ℚ) :
    l.foldl (closestStep goal) acc = acc ∨ l.foldl (closestStep goal) acc ∈ l := by
  induction l generalizing acc with
  | nil => exact Or.inl rfl
  | cons x xs ih =>
    simp only [List.foldl_cons]
    rcases ih (closestStep goal acc x) with h | h
    · rcases closestStep_eq_or goal acc x with h2 | h2
      · exact Or.inl (h.trans h2)
      · exact Or.inr (by rw [h, h2]; exact List.mem_cons_self _ _)
    · exact Or.inr (List.mem_cons_of_mem _ h)

lemma foldl_closestStep_le_acc (goal : ℚ) (l : List ℚ) (acc : ℚ) :
    |l.foldl (closestStep goal) acc - goal| ≤ |acc - goal| := by
  induction l generalizing acc with
  | nil => exact le_rfl
  | cons x xs ih =>
    simp only [List.foldl_cons]
    exact le_trans (ih _) (closestStep_le_left goal acc x)

lemma foldl_closestStep_min (goal : ℚ) (l : List ℚ) (acc : ℚ) :
    ∀ q ∈ l, |l.foldl (closestStep goal) acc - goal| ≤ |q - goal| := by
  induction l generalizing acc with
  | nil => intro q hq; cases hq
  | cons x xs ih =>
    intro q hq
    simp only [List.foldl_cons]
    rcases List.mem_cons.mp hq with rfl | hq2
    · exact le_trans (foldl_closestStep_le_acc goal xs _) (closestStep_le_right goal acc q)
    · exact ih _ q hq2

/-- `getClosest` returns a member of a nonempty candidate list. -/
lemma getClosest_mem (nums : List ℚ) (goal : ℚ) (h : nums ≠ []) :
    getClosest nums goal ∈ nums := by
  cases nums with
  | nil => exact absurd rfl h
  | cons n rest =>
    show rest.foldl (closestStep goal) n ∈ n :: rest
    rcases foldl_closestStep_mem goal rest n with h2 | h2
    · rw [h2]; exact List.mem_cons_self _ _
    · exact List.mem_cons_of_mem _ h2

/-- `getClosest` minimizes the distance to the goal over a nonempty
candidate list. -/
lemma getClosest_min (nums : List ℚ) (goal : ℚ) (h : nums ≠ []) :
    ∀ q ∈ nums, |getClosest nums goal - goal| ≤ |q - goal| := by
  cases nums with
  | nil => exact absurd rfl h
  | cons n rest =>
    intro q hq
    show |rest.foldl (closestStep goal) n - goal| ≤ |q - goal|
    rcases List.mem_cons.mp hq with rfl | hq2
    · exact foldl_closestStep_le_acc goal rest q
    · exact foldl_closestStep_min goal rest n q hq2

/-- On a duplicate-free list, `jsIndexOf` recovers the position of any
element obtained by indexing. -/
lemma jsIndexOf_get (l : List ℚ) (hnd : l.Nodup) (i : ℕ) (hi : i < l.length) :
    jsIndexOf l (l.get ⟨i, hi⟩) = (i : ℤ) := by
  induction l generalizing i with
  | nil => exact absurd hi (Nat.not_lt_zero i)
  | cons x xs ih =>
    cases i with
    | zero => simp [jsIndexOf]
    | succ j =>
      have hj : j < xs.length := Nat.lt_of_succ_lt_succ hi
      have hget : (x :: xs).get ⟨j + 1, hi⟩ = xs.get ⟨j, hj⟩ := rfl
      have hx : x ≠ xs.get ⟨j, hj⟩ := by
        intro hEq
        exact (List.nodup_cons.mp hnd).1 (hEq ▸ List.get_mem xs j hj)
      have hr := ih (List.nodup_cons.mp hnd).2 j hj
      rw [hget]
      show (if x = xs.get ⟨j, hj⟩ then 0
        else let r := jsIndexOf xs (xs.get ⟨j, hj⟩); if r = -1 then -1 else r + 1) = _
      rw [if_neg hx]
      simp only [hr]
      rw [if_neg (by omega)]
      push_cast
      ring

/-- The live offset stays nonnegative under any drag-event sequence,
starting from any nonnegative state. -/
lemma applyDrags_nonneg (events : List (ℚ × ℚ)) :
    ∀ st : ℚ × ℚ, 0 ≤ st.1 → 0 ≤ (applyDrags st events).1 := by
  induction events with
  | nil => intro st h; exact h
  | cons e es ih =>
    intro st h
    show 0 ≤ (es.foldl (fun st e => handleDrag st e.1 e.2) (handleDrag st e.1 e.2)).1
    exact ih (handleDrag st e.1 e.2) (le_max_right _ _)

end Sheet

namespace Sheet

example : normalizeSnapPoint 800 (1/2) = 400 := by norm_num [normalizeSnapPoint]
example : normalizeSnapPoint 800 (-100) = 700 := by norm_num [normalizeSnapPoint]
example : normalizeSnapPoint 800 250 = 250 := by norm_num [normalizeSnapPoint]
example : getClosest [0, 200, 400] 250 = 200 := by
  norm_num [getClosest, closestStep]
example : recoverIndex [400, 333/2] (400 - 333/2) = -1 := by
  norm_num [recoverIndex, jsIndexOf, round_eq]
example : recoverIndex [400, 200, 0] 200 = 1 := by
  norm_num [recoverIndex, jsIndexOf, round_eq]
example : (handleDragEnd (some [400, 200, 0]) true 400 250 0).animateTarget
    = some 200 := by
  norm_num [handleDragEnd, getClosest, closestStep]

/-- Claim C1: for a release at or below the fast-dismiss threshold, the
chosen target is the candidate `contentHeight - p` closest to the live
offset when snap points are configured (first minimal candidate on
ties), is `contentHeight` exactly when the live offset exceeds 60% of a
positive content height and `0` otherwise when none are configured, and
the concrete example with normalized points `[400, 200, 0]`, content
height `400` and live offset `250` resolves to `200`. -/
theorem C1_release_target (pts : List ℚ) (hasOnSnap : Bool)
    (contentHeight yPos velocityY : ℚ)
    (hv : velocityY ≤ 500) (hne : pts ≠ []) :
    (∃ t, (handleDragEnd (some pts) hasOnSnap contentHeight yPos velocityY).animateTarget
        = some t ∧
      t ∈ pts.map (fun p => contentHeight - p) ∧
      ∀ q ∈ pts.map (fun p => contentHeight - p), |t - yPos| ≤ |q - yPos|) ∧
    (0 < contentHeight →
      (handleDragEnd none hasOnSnap contentHeight yPos velocityY).animateTarget
        = some (if yPos > 3/5 * contentHeight then contentHeight else 0)) ∧
    (handleDragEnd (some [(400:ℚ), 200, 0]) hasOnSnap 400 250 velocityY).animateTarget
      = some 200 := by
  have hvlt : ¬ velocityY > 500 := not_lt.mpr hv
  refine ⟨?_, ?_, ?_⟩
  · have hmapne : pts.map (fun p => contentHeight - p) ≠ [] := by
      simpa using hne
    refine ⟨getClosest (pts.map (fun p => contentHeight - p)) yPos, ?_, ?_, ?_⟩
    · simp only [handleDragEnd, if_neg hvlt]
    · exact getClosest_mem _ _ hmapne
    · exact getClosest_min _ _ hmapne
  · intro hch
    simp only [handleDragEnd, if_neg hvlt, Option.some.injEq]
    have hiff : yPos / contentHeight > 3/5 ↔ yPos > 3/5 * contentHeight := by
      rw [gt_iff_lt, lt_div_iff₀ hch, gt_iff_lt]
    exact if_congr hiff rfl rfl
  · simp only [handleDragEnd, if_neg hvlt, Option.some.injEq]
    norm_num [getClosest, closestStep]

/-- Witness for C1 at normalized points `[400, 200, 0]`, content height
`400`, live offset `250`, release velocity `0`. -/
theorem C1_release_target_witness :
    (handleDragEnd (some [(400:ℚ), 200, 0]) true 400 250 0).animateTarget
      = some 200 :=
  (C1_release_target [400, 200, 0] true 400 250 0 (by norm_num) (by simp)).2.2

/-- Claim C2: any release with vertical velocity strictly above 500
requests a close, computes no target, fires no snap callback and resets
the indicator — for every configuration, measurement state and live
offset. -/
theorem C2_fast_dismiss (snapPoints? : Option (List ℚ)) (hasOnSnap : Bool)
    (contentHeight? : Option ℚ) (yPos velocityY : ℚ) (hv : velocityY > 500) :
    handleDragEndM snapPoints? hasOnSnap contentHeight? yPos velocityY =
      some { closeRequested := true
             animateTarget := none
             snapCallback := none
             indicatorRotation := 0 } := by
  simp only [handleDragEndM, if_pos hv]

/-- Witness for C2 at velocity `501`, snap points `[400, 200, 0]`,
content height `400`, live offset `100`. -/
theorem C2_fast_dismiss_witness :
    handleDragEndM (some [(400:ℚ), 200, 0]) true (some 400) 100 501 =
      some { closeRequested := true
             animateTarget := none
             snapCallback := none
             indicatorRotation := 0 } :=
  C2_fast_dismiss (some [400, 200, 0]) true (some 400) 100 501 (by norm_num)

/-- Claim C3: normalization preserves length, maps each raw value `v` to
`v * H` when `0 < v ≤ 1`, to `H + v` when `v < 0` and leaves it
unchanged otherwise, with no clamping; in particular `0.5 ↦ 0.5 * H`,
`-100 ↦ H - 100` and `250 ↦ 250` for every viewport height `H`. -/
theorem C3_normalization (H : ℚ) (l : List ℚ) :
    (normalizeSnapPoints H l).length = l.length ∧
    (∀ (i : ℕ) (v : ℚ), l[i]? = some v →
      (normalizeSnapPoints H l)[i]? =
        some (if 0 < v ∧ v ≤ 1 then v * H else if v < 0 then H + v else v)) ∧
    (∀ H2 : ℚ, normalizeSnapPoint H2 (1/2) = (1/2) * H2 ∧
      normalizeSnapPoint H2 (-100) = H2 - 100 ∧
      normalizeSnapPoint H2 250 = 250) := by
  refine ⟨by simp [normalizeSnapPoints], ?_, ?_⟩
  · intro i v hv
    simp only [normalizeSnapPoints, List.getElem?_map, hv, Option.map_some]
    rfl
  · intro H2
    refine ⟨?_, ?_, ?_⟩
    · norm_num [normalizeSnapPoint]
    · norm_num [normalizeSnapPoint]
      ring
    · norm_num [normalizeSnapPoint]

/-- Witness for C3 at viewport height `800` and raw points
`[1/2, -100, 250]`, position `0`. -/
theorem C3_normalization_witness :
    (normalizeSnapPoints 800 [1/2, -100, 250])[0]? = some 400 := by
  have h := (C3_normalization 800 [1/2, -100, 250]).2.1 0 (1/2) rfl
  rw [h]
  norm_num

/-- Counterexample to C4 as stated: the duplicate-free normalized
sequence `[400, 333/2]` has its first point equal to the content height
`400`, yet recovering the index of the candidate produced by index `1`
yields `-1`, not `1`: rounding `333/2 = 166.5` to `167` defeats the
exact-match lookup. -/
theorem C4_counterexample :
    ([(400:ℚ), 333/2]).headD 0 = 400 ∧
    ([(400:ℚ), 333/2]).Nodup ∧
    recoverIndex [(400:ℚ), 333/2]
      (400 - ([(400:ℚ), 333/2]).get ⟨1, by norm_num⟩) = -1 := by
  refine ⟨rfl, by norm_num, ?_⟩
  show recoverIndex [(400:ℚ), 333/2] (400 - 333/2) = -1
  norm_num [recoverIndex, jsIndexOf, round_eq]

/-- Claim C4, amended: the round-trip additionally needs every
normalized snap point to survive the recovery arithmetic unchanged,
i.e. `|round p| = p` (a nonnegative integer value); rounding breaks the
exact-match lookup for fractional points.  Under that strengthening,
when the first normalized point equals the content height, recovering
the index of the candidate `contentHeight - pts[i]` returns `i` for
every index `i` of a duplicate-free sequence. -/
theorem C4_index_recovery (pts : List ℚ) (contentHeight : ℚ)
    (i : ℕ) (hi : i < pts.length)
    (h0 : pts.headD 0 = contentHeight) (hnd : pts.Nodup)
    (hint : ∀ p ∈ pts, ((|round p| : ℤ) : ℚ) = p) :
    recoverIndex pts (contentHeight - pts.get ⟨i, hi⟩) = (i : ℤ) := by
  unfold recoverIndex
  have h1 : pts.headD 0 - (contentHeight - pts.get ⟨i, hi⟩) = pts.get ⟨i, hi⟩ := by
    rw [h0]; ring
  rw [h1, hint _ (List.get_mem pts i hi)]
  exact jsIndexOf_get pts hnd i hi

/-- Witness for the amended C4 at points `[400, 200, 0]`, content
height `400`, index `1`. -/
theorem C4_index_recovery_witness :
    recoverIndex [(400:ℚ), 200, 0]
      (400 - ([(400:ℚ), 200, 0]).get ⟨1, by norm_num⟩) = 1 :=
  C4_index_recovery [400, 200, 0] 400 1 (by norm_num) rfl (by norm_num)
    (by
      intro p hp
      simp only [List.mem_cons, List.not_mem_nil, or_false] at hp
      rcases hp with rfl | rfl | rfl <;> norm_num [round_eq])

/-- Claim C5: `snapTo` is a no-op without snap points or with an
out-of-range index; with an in-range index it targets
`contentHeight - normalizedSnapPoints[N]` — the release resolver's
candidate for that index — requests the transition, reports `N` to the
snap observer when one is configured, and requests a close exactly when
the target reaches the content height. -/
theorem C5_snapTo (pts : List ℚ) (hasOnSnap : Bool) (contentHeight : ℚ) (N : ℤ) :
    snapTo none hasOnSnap (some contentHeight) N = some SnapToResult.noop ∧
    ((N < 0 ∨ (pts.length : ℤ) ≤ N) →
      snapTo (some pts) hasOnSnap (some contentHeight) N = some SnapToResult.noop) ∧
    (∀ (hN : 0 ≤ N) (hlt : N.toNat < pts.length),
      snapTo (some pts) hasOnSnap (some contentHeight) N =
        some { animateTarget := some (contentHeight - pts.get ⟨N.toNat, hlt⟩)
               snapCallback := if hasOnSnap then some N else none
               closeRequested :=
                 decide (contentHeight ≤ contentHeight - pts.get ⟨N.toNat, hlt⟩) } ∧
      contentHeight - pts.get ⟨N.toNat, hlt⟩ =
        (pts.map (fun p => contentHeight - p)).get ⟨N.toNat, by simpa using hlt⟩) := by
  refine ⟨rfl, ?_, ?_⟩
  · intro hout
    rcases hout with hneg | hbig
    · simp only [snapTo, if_pos hneg]
    · have hnN : ¬ N < 0 := by omega
      have hnone : pts.get? N.toNat = none := by
        rw [List.get?_eq_none]
        omega
      simp only [snapTo, if_neg hnN, hnone]
  · intro hN hlt
    have hnN : ¬ N < 0 := not_lt.mpr hN
    have hsome : pts.get? N.toNat = some (pts.get ⟨N.toNat, hlt⟩) :=
      List.get?_eq_get hlt
    constructor
    · simp only [snapTo, if_neg hnN, hsome]
    · simp [List.get_eq_getElem, List.getElem_map]

/-- Witness for C5: with points `[400, 200, 0]` and content height
`400`, index `5` is a no-op and index `1` targets `200`, reports `1`,
and requests no close. -/
theorem C5_snapTo_witness :
    snapTo (some [(400:ℚ), 200, 0]) true (some 400) 5 = some SnapToResult.noop ∧
    snapTo (some [(400:ℚ), 200, 0]) true (some 400) 1 =
      some { animateTarget := some 200
             snapCallback := some 1
             closeRequested := false } := by
  constructor
  · exact (C5_snapTo [400, 200, 0] true 400 5).2.1 (Or.inr (by norm_num))
  · have h := ((C5_snapTo [400, 200, 0] true 400 1).2.2 (by norm_num) (by norm_num)).1
    rw [h]
    norm_num [SnapToResult.mk.injEq]

/-- Claim C6: once mounted, with snap points and a snap observer
configured, the open/close effect reports the configured initial snap
index on opening and the last index on closing; with three points and
`initialSnap = 1`, opening reports `1` and closing reports `2`. -/
theorem C6_open_close_callback (pts : List ℚ) (initialSnap : ℤ) :
    openCloseSnapEffect (some pts) true true true initialSnap = some initialSnap ∧
    openCloseSnapEffect (some pts) true true false initialSnap
      = some ((pts.length : ℤ) - 1) ∧
    (∀ A B C : ℚ,
      openCloseSnapEffect (some [A, B, C]) true true true 1 = some 1 ∧
      openCloseSnapEffect (some [A, B, C]) true true false 1 = some 2) := by
  refine ⟨rfl, rfl, ?_⟩
  intro A B C
  exact ⟨rfl, by norm_num [openCloseSnapEffect]⟩

/-- Claim C7: each drag update sets the offset to `max(c + delta, 0)`;
downward motion (nonnegative sum) passes through unclamped; and from
any nonnegative starting offset the offset stays nonnegative across any
event sequence. -/
theorem C7_drag_clamp :
    (∀ c rot v d : ℚ, (handleDrag (c, rot) v d).1 = max (c + d) 0) ∧
    (∀ c rot v d : ℚ, 0 ≤ c + d → (handleDrag (c, rot) v d).1 = c + d) ∧
    (∀ y0 rot : ℚ, 0 ≤ y0 →
      ∀ events : List (ℚ × ℚ), 0 ≤ (applyDrags (y0, rot) events).1) := by
  refine ⟨fun c rot v d => rfl, ?_, ?_⟩
  · intro c rot v d h
    exact max_eq_left h
  · intro y0 rot h events
    exact applyDrags_nonneg events (y0, rot) h

/-- Witness for C7: starting at offset `5`, the drag sequence with
deltas `-3, -10, 4` keeps the offset nonnegative. -/
theorem C7_drag_clamp_witness :
    (0:ℚ) ≤ 5 ∧ 0 ≤ (applyDrags ((5:ℚ), 0) [(1, -3), (2, -10), (-1, 4)]).1 :=
  ⟨by norm_num,
    C7_drag_clamp.2.2 5 0 (by norm_num) [(1, -3), (2, -10), (-1, 4)]⟩

/-- Counterexample to C8 as stated: with normalized points `[300]`,
content height `400`, live offset `100`, release velocity `0`, the
exact-match lookup fails (the recovered index is `-1`), yet the release
handler still fires the snap observer — with the sentinel `-1` — rather
than suppressing the callback. -/
theorem C8_counterexample :
    recoverIndex [(300:ℚ)]
      (getClosest ([(300:ℚ)].map (fun p => (400:ℚ) - p)) 100) = -1 ∧
    (handleDragEnd (some [(300:ℚ)]) true 400 100 0).snapCallback = some (-1) := by
  constructor
  · norm_num [recoverIndex, jsIndexOf, getClosest, closestStep, round_eq]
  · norm_num [handleDragEnd, recoverIndex, jsIndexOf, getClosest, closestStep,
      round_eq]

/-- Claim C8, amended: when the exact-match lookup finds no position,
the mapper still does not throw, but the snap observer IS fired — with
the JavaScript `indexOf` sentinel `-1` — for that release. -/
theorem C8_no_match_fires_sentinel (pts : List ℚ) (contentHeight yPos velocityY : ℚ)
    (hv : velocityY ≤ 500)
    (hnf : recoverIndex pts
      (getClosest (pts.map (fun p => contentHeight - p)) yPos) = -1) :
    (handleDragEnd (some pts) true contentHeight yPos velocityY).snapCallback
      = some (-1) := by
  simp only [handleDragEnd, if_neg (not_lt.mpr hv), if_pos rfl]
  exact congrArg some hnf

/-- Witness for the amended C8 at points `[300]`, content height `400`,
live offset `100`, velocity `0`. -/
theorem C8_no_match_fires_sentinel_witness :
    (handleDragEnd (some [(300:ℚ)]) true 400 100 0).snapCallback = some (-1) :=
  C8_no_match_fires_sentinel [300] 400 100 0 (by norm_num)
    (by norm_num [recoverIndex, jsIndexOf, getClosest, closestStep, round_eq])

/-- Claim C9 evaluated at the failing inputs: with the panel element
unavailable (`contentHeight? = none`), a below-threshold release and an
in-range `snapTo` both dereference the null panel ref — modelled as
`none`, the thrown `TypeError` — instead of being no-ops. -/
theorem C9_missing_measurement_throws :
    handleDragEndM (some [(400:ℚ), 0]) true none 100 0 = none ∧
    snapTo (some [(400:ℚ), 0]) true none 0 = none ∧
    handleDragEndM none true none 100 0 = none := by
  refine ⟨?_, ?_, ?_⟩ <;>
    norm_num [handleDragEndM, snapTo]

/-- Claim C10: the open-transition callback applies no bounds check to
the configured initial snap index: even when it is at or beyond the
length of the snap-point sequence, opening after mount reports it
unchanged. -/
theorem C10_no_bounds_check (pts : List ℚ) (initialSnap : ℤ)
    (hout : (pts.length : ℤ) ≤ initialSnap) :
    openCloseSnapEffect (some pts) true true true initialSnap = some initialSnap :=
  rfl

/-- Witness for C10 at points `[400, 200, 0]` and out-of-range initial
snap index `5`. -/
theorem C10_no_bounds_check_witness :
    openCloseSnapEffect (some [(400:ℚ), 200, 0]) true true true 5 = some 5 :=
  C10_no_bounds_check [400, 200, 0] 5 (by norm_num)

end Sheet
